import Mathlib

/-!
Verification of the result log and export pipeline of `src/app.py`
(FreelanceBoost AI).

The program keeps an in-memory list `results_storage` of generated-content
records, mirrors it to a JSON file `freelance_results.json`
(`load_results` / `save_results`), appends one record per successful
generation (`generate_fiverr_gig`, `generate_upwork_proposal`), and offers
read-only views (`get_results_display`, `filter_results`) and exports
(`export_to_csv`, `export_to_json`).

Shallow embedding conventions:
* JSON documents are modelled by the abstract value type `JVal`; the byte
  encoding and decoding of JSON text is performed in the source by Python's
  `json` library (`json.dump` / `json.load`), which we treat as a faithful
  external serializer, so the backing file is modelled as holding either a
  parsed JSON document, corrupt (unparsable) content, or nothing.
* The process clock (`datetime.now()`) is an explicit `DateTime` argument.
* The optional language-model title suggestion is an `Option String`
  argument (the source's try/fallback around the `transformers` pipeline).
* Python exceptions are modelled by `Except PyError`; an operation that can
  both mutate the global state and raise returns the state it leaves behind
  together with the outcome, matching Python's semantics where mutations
  performed before a raise persist.
* The file write in `save_results` (which has no handler in the source) is
  modelled by a `WriteOutcome` argument: on success the file holds the
  dumped document; on failure the call raises `OSError` and — because
  `open(..., "w")` truncates the file before `json.dump` runs — the file is
  left in an arbitrary environment-chosen state (truncated, partially
  written, or the prior contents), not guaranteed to be the prior state.
-/

namespace FreelanceBoost

/-- A JSON document value, as produced by Python's `json.load` /
consumed by `json.dump`. Numbers are split into integers and (here
unneeded) floats the way Python's `json` module does; records in this
program only ever store strings. -/
inductive JVal where
  | null : JVal
  | bool (b : Bool) : JVal
  | int (n : Int) : JVal
  | str (s : String) : JVal
  | arr (elems : List JVal) : JVal
  | obj (fields : List (String × JVal)) : JVal
  deriving Repr

/-- One entry of `results_storage`: the dict literal built at
`src/app.py:204-212` (Fiverr) and `src/app.py:364-373` (Upwork).
All seven fields are strings. -/
structure GeneratedRecord where
  platform : String
  category : String
  title : String
  description : String
  hashtags : String
  pricing : String
  timestamp : String
  deriving Repr, DecidableEq

/-- The persisted field names, in the order the source writes them. -/
def persistedFields : List String :=
  ["platform", "category", "title", "description", "hashtags", "pricing", "timestamp"]

/-- Serialize one record to the JSON object `json.dump` writes for it. -/
def recordToJVal (r : GeneratedRecord) : JVal :=
  .obj [("platform", .str r.platform), ("category", .str r.category),
        ("title", .str r.title), ("description", .str r.description),
        ("hashtags", .str r.hashtags), ("pricing", .str r.pricing),
        ("timestamp", .str r.timestamp)]

/-- Serialize the whole store, as `save_results` does with `json.dump`. -/
def encodeRecords (rs : List GeneratedRecord) : JVal :=
  .arr (rs.map recordToJVal)

/-- Field lookup in a JSON object (first binding wins, as in a Python dict
built from distinct keys). -/
def lookupJ (fields : List (String × JVal)) (k : String) : Option JVal :=
  (fields.find? (fun p => p.1 == k)).map (fun p => p.2)

/-- Extract a JSON string, if the value is one. -/
def jvalStr : JVal → Option String
  | .str s => some s
  | _ => none

/-- Read one record back from a JSON object carrying the seven persisted
string fields. Used to state what "an identical sequence of records,
field-for-field" means for the persisted form. -/
def decodeRecord (v : JVal) : Option GeneratedRecord :=
  match v with
  | .obj fs =>
    match (lookupJ fs "platform").bind jvalStr, (lookupJ fs "category").bind jvalStr,
          (lookupJ fs "title").bind jvalStr, (lookupJ fs "description").bind jvalStr,
          (lookupJ fs "hashtags").bind jvalStr, (lookupJ fs "pricing").bind jvalStr,
          (lookupJ fs "timestamp").bind jvalStr with
    | some p, some c, some t, some d, some h, some pr, some ts =>
      some ⟨p, c, t, d, h, pr, ts⟩
    | _, _, _, _, _, _, _ => none
  | _ => none

/-- Read each element of a list of JSON values as a record; fail if any
element is not record-shaped. -/
def decodeRecordList : List JVal → Option (List GeneratedRecord)
  | [] => some []
  | v :: rest =>
    match decodeRecord v, decodeRecordList rest with
    | some r, some rs => some (r :: rs)
    | _, _ => none

/-- Read a full record sequence back from a JSON document. -/
def decodeRecords (v : JVal) : Option (List GeneratedRecord) :=
  match v with
  | .arr l => decodeRecordList l
  | _ => none

/-- The state of the backing file `freelance_results.json`: missing,
present but not parsable as JSON, or present with a parsed document. -/
inductive FileState where
  | absent : FileState
  | corrupt : FileState
  | json (v : JVal) : FileState

/-- `load_results` (src/app.py:34-42): if the file exists, try to
`json.load` it, returning `[]` on any failure; if it does not exist,
return `[]`. The result is whatever document the file held — no shape
validation is performed. -/
def load_results : FileState → JVal
  | .absent => .arr []
  | .corrupt => .arr []
  | .json v => v

/-- `save_results` (src/app.py:45-48): rewrite the backing file with the
JSON dump of the given storage value. (The `indent=2` pretty-printing
affects only the concrete text, which the `json` library round-trips.) -/
def save_results (results : JVal) : FileState :=
  .json results

/-- The keys of a JSON object (for the top-level constructor only). -/
def objKeys : JVal → List String
  | .obj fs => fs.map (fun p => p.1)
  | _ => []

/-! ### Clock and decimal rendering

`datetime.now()` readings are passed in explicitly; `strftime` patterns
are rendered with zero-padded decimal components, matching CPython. -/

/-- A clock reading at second granularity, the part of `datetime.now()`
the program consumes. -/
structure DateTime where
  year : Nat
  month : Nat
  day : Nat
  hour : Nat
  minute : Nat
  second : Nat
  deriving Repr, DecidableEq

/-- The decimal digit character for `n < 10` (clamping at `'9'`). -/
def natDigitChar (n : Nat) : Char :=
  match n with
  | 0 => '0' | 1 => '1' | 2 => '2' | 3 => '3' | 4 => '4'
  | 5 => '5' | 6 => '6' | 7 => '7' | 8 => '8' | _ => '9'

/-- Structural worker for `natDigits`; the first argument is fuel,
always supplied large enough to cover every division step. -/
def natDigitsAux : Nat → Nat → List Char
  | 0, _ => []
  | fuel + 1, n =>
    if n < 10 then [natDigitChar n]
    else natDigitsAux fuel (n / 10) ++ [natDigitChar (n % 10)]

/-- Decimal digit list of a natural number (most significant first),
as Python's `str` renders a nonnegative `int`. -/
def natDigits (n : Nat) : List Char :=
  natDigitsAux (n + 1) n

/-- Decimal string of a natural number. -/
def natStr (n : Nat) : String :=
  ⟨natDigits n⟩

/-- Zero-padded decimal rendering to width `w`, as `strftime`'s `%Y`
(`w = 4`) and `%m, %d, %H, %M, %S` (`w = 2`) produce. -/
def padNat (w n : Nat) : List Char :=
  List.replicate (w - (natDigits n).length) '0' ++ natDigits n

/-- `datetime.now().strftime('%Y%m%d_%H%M%S')`, the export-filename
timestamp (src/app.py:430,445). -/
def strftimeCompact (t : DateTime) : String :=
  ⟨padNat 4 t.year ++ padNat 2 t.month ++ padNat 2 t.day ++ ['_'] ++
    padNat 2 t.hour ++ padNat 2 t.minute ++ padNat 2 t.second⟩

/-- `datetime.now().strftime('%Y-%m-%d %H:%M:%S')`, the record timestamp
(src/app.py:211,372). -/
def strftimeDisplay (t : DateTime) : String :=
  ⟨padNat 4 t.year ++ ['-'] ++ padNat 2 t.month ++ ['-'] ++ padNat 2 t.day ++ [' '] ++
    padNat 2 t.hour ++ [':'] ++ padNat 2 t.minute ++ [':'] ++ padNat 2 t.second⟩

/-! ### Display and filtering

`get_results_display` and `filter_results` build a pandas DataFrame from
the stored dicts, select the seven record columns in a fixed order and
rename them for display; the DataFrame is modelled by its column header
list and its rows of strings. -/

/-- A rendered results table: column headers plus rows. -/
structure Frame where
  columns : List String
  rows : List (List String)
  deriving Repr, DecidableEq

/-- The display column headers (src/app.py:386-396,411-419,463-494). -/
def displayColumns : List String :=
  ["Platform", "Category", "Title", "Description", "Tags", "Pricing", "Timestamp"]

/-- One record projected into the display column order
`platform, category, title, description, hashtags, pricing, timestamp`
(src/app.py:400-410). -/
def recordRow (r : GeneratedRecord) : List String :=
  [r.platform, r.category, r.title, r.description, r.hashtags, r.pricing, r.timestamp]

/-- `get_results_display` (src/app.py:380-420): an empty store renders as
the empty seven-column table; otherwise every stored record becomes one
row, in store order. -/
def get_results_display (results_storage : List GeneratedRecord) : Frame :=
  if results_storage = [] then ⟨displayColumns, []⟩
  else ⟨displayColumns, results_storage.map recordRow⟩

/-- `filter_results` (src/app.py:455-495): `"All"` defers to
`get_results_display`; otherwise keep the records whose `platform` field
equals the filter, rendering the empty seven-column table when none
match. -/
def filter_results (platform_filter : String)
    (results_storage : List GeneratedRecord) : Frame :=
  if platform_filter = "All" then get_results_display results_storage
  else
    let filtered := results_storage.filter (fun r => r.platform == platform_filter)
    if filtered = [] then ⟨displayColumns, []⟩
    else ⟨displayColumns, filtered.map recordRow⟩

/-! ### Exports -/

/-- The status string both exporters return for an empty store
(src/app.py:426,442). -/
def emptyExportStatus : String :=
  "No results to export yet. Generate some gigs or proposals first!"

/-- The success status string, carrying the record count
(src/app.py:435,451). -/
def exportSuccessStatus (n : Nat) : String :=
  "✅ Successfully exported " ++ natStr n ++ " results"

/-- The CSV export filename for a given clock reading (src/app.py:429-431). -/
def csv_filename (now : DateTime) : String :=
  "freelanceboost_export_" ++ strftimeCompact now ++ ".csv"

/-- The JSON export filename for a given clock reading (src/app.py:444-446). -/
def json_filename (now : DateTime) : String :=
  "freelanceboost_export_" ++ strftimeCompact now ++ ".json"

/-- `export_to_csv` (src/app.py:423-436): on an empty store, return no
file and the "nothing to export" status, writing nothing; otherwise write
the timestamp-named CSV (the text rendering itself is pandas'
`DataFrame.to_csv`, an external collaborator, so only the name of the
written file is modelled) and return it with the success status. The
first component is the file handed back, which is also exactly the file
written. -/
def export_to_csv (now : DateTime)
    (results_storage : List GeneratedRecord) : Option String × String :=
  if results_storage = [] then (none, emptyExportStatus)
  else (some (csv_filename now), exportSuccessStatus results_storage.length)

/-- `export_to_json` (src/app.py:439-452): on an empty store, return no
file and the "nothing to export" status, writing nothing; otherwise
`json.dump` the full store into the timestamp-named file and return it
with the success status. The first component carries the written
filename together with the document written into it. -/
def export_to_json (now : DateTime)
    (results_storage : List GeneratedRecord) : Option (String × JVal) × String :=
  if results_storage = [] then (none, emptyExportStatus)
  else (some (json_filename now, encodeRecords results_storage),
        exportSuccessStatus results_storage.length)

/-! ### Python string and number primitives

The generation functions call `str.split()`, `str.strip()`, `int(str)`
and `float(str)`. These are modelled on their ASCII fragment: splitting
and stripping use ASCII whitespace, and numeric literals are plain
decimal ones (sign, digits, optional fractional part); digit-group
underscores, exponents, infinities and NaN are outside the fragment.
A failed conversion (`ValueError`) is `none`. -/

/-- ASCII whitespace as Python's `str.split()` / `str.strip()` see it. -/
def pyWhitespace (c : Char) : Bool :=
  c == ' ' || c == '\t' || c == '\n' || c == '\r' || c == '\x0b' || c == '\x0c'

/-- Python `str.strip()` with no argument (ASCII fragment). -/
def pyStrip (s : String) : String :=
  ⟨((s.toList.dropWhile pyWhitespace).reverse.dropWhile pyWhitespace).reverse⟩

/-- Worker for `pySplit`: `cur` holds the characters of the token being
read, in reverse. -/
def pySplitAux : List Char → List Char → List String
  | [], cur => if cur = [] then [] else [⟨cur.reverse⟩]
  | c :: rest, cur =>
    if pyWhitespace c then
      if cur = [] then pySplitAux rest []
      else ⟨cur.reverse⟩ :: pySplitAux rest []
    else pySplitAux rest (c :: cur)

/-- Python `str.split()` with no separator: split on runs of whitespace,
discarding empty pieces (so an all-whitespace string splits to `[]`). -/
def pySplit (s : String) : List String :=
  pySplitAux s.toList []

/-- Decimal digit test, `'0'` through `'9'`. -/
def charIsDigit (c : Char) : Bool :=
  '0' ≤ c && c ≤ '9'

/-- The numeric value of a decimal digit list (most significant first). -/
def digitsVal (l : List Char) : Nat :=
  l.foldl (fun acc c => 10 * acc + (c.toNat - 48)) 0

/-- Strip surrounding whitespace and split off an optional sign. -/
def signSplit (s : String) : Int × List Char :=
  match (pyStrip s).toList with
  | '+' :: rest => (1, rest)
  | '-' :: rest => (-1, rest)
  | rest => (1, rest)

/-- Python `int(str)` on the ASCII decimal fragment: optional surrounding
whitespace, optional sign, one or more decimal digits. `none` models
`ValueError` (so e.g. `int("50.5")` fails). -/
def pyIntOfString (s : String) : Option Int :=
  let (sign, ds) := signSplit s
  if ds ≠ [] ∧ ds.all charIsDigit then some (sign * (digitsVal ds : Int)) else none

/-- Python `float(str)` on the finite decimal fragment: optional
surrounding whitespace and sign, then `digits`, `digits.digits`,
`digits.` or `.digits`, valued as an exact rational. `none` models
`ValueError`. -/
def pyFloatOfString (s : String) : Option ℚ :=
  let (sign, body) := signSplit s
  let ip := body.takeWhile charIsDigit
  match body.dropWhile charIsDigit with
  | [] => if ip ≠ [] then some (sign * (digitsVal ip : ℚ)) else none
  | '.' :: fp =>
    if fp.all charIsDigit ∧ (ip ≠ [] ∨ fp ≠ []) then
      some ((sign : ℚ) *
        ((digitsVal ip : ℚ) + (digitsVal fp : ℚ) / (10 : ℚ) ^ fp.length))
    else none
  | _ => none

/-- Python `int(float)` on a finite value: truncation toward zero. -/
def ratTrunc (q : ℚ) : Int :=
  if q < 0 then -(⌊-q⌋) else ⌊q⌋

/-- Python `str` of an `int`. -/
def intStr (i : Int) : String :=
  if i < 0 then "-" ++ natStr i.natAbs else natStr i.natAbs

/-! ### The generation layer

`generate_fiverr_gig` and `generate_upwork_proposal` build the templated
copy, append one record to `results_storage` and rewrite the backing
file. Python exceptions are surfaced as `Except PyError`; because the
global list is mutated before `save_results` runs, each operation
returns the state it leaves behind alongside its outcome. -/

/-- The exceptions the modelled code can raise: `ValueError` from
`int()`/`float()`, `IndexError` from `skills.split()[0]`, and `OSError`
from the file write in `save_results`. -/
inductive PyError where
  | valueError : PyError
  | indexError : PyError
  | ioError : PyError
  deriving Repr, DecidableEq

/-- The program's mutable state: the global `results_storage` list and
the backing file `freelance_results.json`. -/
structure AppState where
  results_storage : List GeneratedRecord
  file : FileState

/-- The environment's verdict on one attempt to rewrite the backing file
(src/app.py:45-48). On `success` the file ends up holding the dumped
document. On `failure` the write raises `OSError`; since
`open(RESULTS_FILE, "w")` truncates the file before `json.dump` runs, a
failure (disk full, permissions revoked mid-write, crash) leaves the
file in whatever state `f` the interrupted write produced — truncated,
partially written, or (failing before the truncation took effect) the
prior contents. The model therefore carries `f` as an arbitrary
environment-chosen `FileState`. -/
inductive WriteOutcome where
  | success : WriteOutcome
  | failure (f : FileState) : WriteOutcome

/-- The template gig title (src/app.py:73), used when the model path is
absent or produced only whitespace. -/
def fiverrDefaultTitle (category skills : String) : String :=
  "I will provide expert " ++ category ++ " services - " ++ skills

/-- The gig title (src/app.py:73-88): the model's suggestion — already
cut to its first line and 100 characters, passed here as `modelTitle` —
replaces the template exactly when it strips to something non-empty;
every model failure falls back to the template. -/
def fiverrTitle (modelTitle : Option String) (category skills : String) : String :=
  match modelTitle with
  | some generated =>
    if pyStrip generated ≠ "" then generated else fiverrDefaultTitle category skills
  | none => fiverrDefaultTitle category skills

/-- The gig description template (src/app.py:91-115). -/
def fiverrDescription (category experience skills : String) : String :=
  "## Professional " ++ category ++ " Services\n\n**About This Gig:**\nI offer premium " ++
  category ++ " services with " ++ experience ++
  " of hands-on experience. My expertise includes " ++ skills ++
  ", ensuring high-quality deliverables that exceed expectations.\n\n**What You'll Get:**\n✓ Professional and timely delivery\n✓ Unlimited revisions until you're satisfied\n✓ High-quality work tailored to your needs\n✓ Clear communication throughout the project\n✓ 100% satisfaction guarantee\n\n**Why Choose Me:**\n- " ++
  experience ++ " of proven experience\n- Specialized in " ++ skills ++
  "\n- Fast turnaround time\n- Client satisfaction is my priority\n\n**How It Works:**\n1. Discuss your requirements\n2. I'll create a custom solution\n3. Receive your completed project\n4. Request revisions if needed\n\nLet's work together to bring your vision to life!"

/-- `skills.split()[0] if skills else 'Expert'` (src/app.py:123): an
empty `skills` short-circuits to `'Expert'`; a non-empty but
all-whitespace `skills` makes `split()` return the empty list, so the
`[0]` raises `IndexError`. -/
def fiverrFirstSkill (skills : String) : Except PyError String :=
  if skills = "" then .ok "Expert"
  else
    match pySplit skills with
    | [] => .error .indexError
    | t :: _ => .ok t

/-- The hashtag list (src/app.py:118-129). -/
def fiverrHashtags (category firstSkill : String) : List String :=
  ["#" ++ category.replace " " "", "#FreelanceServices", "#QualityWork",
   "#ProfessionalService", "#" ++ firstSkill, "#FastDelivery",
   "#CustomerSatisfaction", "#TopRated", "#AffordablePricing",
   "#ExperiencedFreelancer"]

/-- The simulated popularity label by hashtag position (src/app.py:134). -/
def popularityLabel (i : Nat) : String :=
  if i < 3 then "🔥 High" else if i < 6 then "📈 Medium" else "✅ Good"

/-- `hashtag_info` (src/app.py:132-137). -/
def hashtagInfo (hashtags : List String) : String :=
  String.intercalate "\n"
    (hashtags.enum.map (fun p => p.2 ++ " - " ++ popularityLabel p.1 ++ " popularity"))

/-- The pricing-structure template (src/app.py:140-158), with the three
package amounts substituted in. -/
def fiverrPricingText (basic standard premium : String) : String :=
  "**Fiverr Pricing Structure:**\n\n**Basic Package:** $" ++ basic ++
  " - Essential service\n- Delivery: 3-5 days\n- 1 Revision\n- Basic support\n\n**Standard Package:** $" ++
  standard ++
  " - Most Popular\n- Delivery: 5-7 days\n- 3 Revisions\n- Priority support\n- Source files included\n\n**Premium Package:** $" ++
  premium ++
  " - Best Value\n- Delivery: 7-10 days\n- Unlimited revisions\n- 24/7 Priority support\n- Source files + Commercial rights\n- Fast delivery option"

/-- `pricing_suggestion` (src/app.py:140-158): an empty `pricing` input
uses the default amounts 50/100/150; otherwise the Standard and Premium
amounts are `int(float(pricing) * 2)` and `int(float(pricing) * 3)`, so
a non-numeric `pricing` raises `ValueError` here, before any record is
appended. -/
def fiverrPricingSuggestion (pricing : String) : Except PyError String :=
  if pricing = "" then .ok (fiverrPricingText "50" "100" "150")
  else
    match pyFloatOfString pricing with
    | none => .error .valueError
    | some q =>
      .ok (fiverrPricingText pricing (intStr (ratTrunc (q * 2))) (intStr (ratTrunc (q * 3))))

/-- The static Fiverr tips block (src/app.py:161-172). -/
def fiverrTips : String :=
  "**🎯 Fiverr Success Tips:**\n\n1. **Gig Optimization:** Use all 5 gig images/videos - visual content increases sales by 200%\n2. **Keywords:** Include relevant keywords in your title and description for better search ranking\n3. **Response Time:** Reply to messages within 1 hour to maintain high response rate\n4. **Portfolio:** Showcase your best 3 work samples to build trust\n5. **Gig Packages:** Offer 3 distinct packages to cater to different budgets\n6. **Gig SEO:** Research trending keywords in your category using Fiverr search\n7. **Video Introduction:** Add a 60-second video to increase conversions by 220%\n8. **Reviews:** Deliver exceptional service to earn 5-star reviews consistently\n9. **Gig Extras:** Offer add-ons like \"Fast Delivery\" or \"Additional Revisions\"\n10. **Stay Active:** Log in daily and share gigs on social media for better visibility"

/-- The full markdown the Fiverr generator returns (src/app.py:175-201). -/
def fiverrOutput (title description hashtag_info pricing_suggestion tips ts : String) :
    String :=
  "# 🎨 Generated Fiverr Gig\n\n## 📝 Gig Title:\n" ++ title ++
  "\n\n---\n\n## 📄 Gig Description:\n" ++ description ++
  "\n\n---\n\n## 🏷️ Hashtags & Popularity:\n" ++ hashtag_info ++
  "\n\n---\n\n## 💰 Pricing Recommendations:\n" ++ pricing_suggestion ++
  "\n\n---\n\n## 💡 " ++ tips ++ "\n\n---\n*Generated on " ++ ts ++ "*\n"

/-- The dict appended to `results_storage` by the Fiverr generator
(src/app.py:204-212): `hashtags` is the comma-join of the first five
hashtag strings, `pricing` is the raw input or the `"50-150"` default
when the input is empty, `timestamp` is the append-time clock reading. -/
def fiverrEntry (now : DateTime) (category title description : String)
    (hashtags : List String) (pricing : String) : GeneratedRecord :=
  { platform := "Fiverr"
    category := category
    title := title
    description := description
    hashtags := String.intercalate ", " (hashtags.take 5)
    pricing := if pricing = "" then "50-150" else pricing
    timestamp := strftimeDisplay now }

/-- `generate_fiverr_gig` (src/app.py:55-216). Control flow, in source
order: build title and description; build the hashtag list (which can
raise `IndexError` on all-whitespace `skills`); build the pricing
suggestion (which can raise `ValueError` on non-numeric `pricing`);
append the record to `results_storage`; rewrite the backing file — a
failed write propagates `OSError` after the in-memory append, leaving
the file in the unguaranteed state the interrupted, truncating write
produced; return the assembled markdown. -/
def generate_fiverr_gig (category experience skills pricing : String)
    (now : DateTime) (modelTitle : Option String) (w : WriteOutcome)
    (st : AppState) : AppState × Except PyError String :=
  let title := fiverrTitle modelTitle category skills
  let description := fiverrDescription category experience skills
  match fiverrFirstSkill skills with
  | .error e => (st, .error e)
  | .ok firstSkill =>
    let hashtags := fiverrHashtags category firstSkill
    match fiverrPricingSuggestion pricing with
    | .error e => (st, .error e)
    | .ok pricing_suggestion =>
      let output := fiverrOutput title description (hashtagInfo hashtags)
        pricing_suggestion fiverrTips (strftimeDisplay now)
      let entry := fiverrEntry now category title description hashtags pricing
      let store := st.results_storage ++ [entry]
      match w with
      | .success =>
        ({ results_storage := store, file := save_results (encodeRecords store) },
         .ok output)
      | .failure f =>
        ({ results_storage := store, file := f }, .error .ioError)

/-- The proposal title (src/app.py:234). -/
def upworkTitle (category experience skills : String) : String :=
  category ++ " Expert | " ++ experience ++ " Experience | " ++ skills

/-- The proposal cover-letter template (src/app.py:237-276). -/
def upworkDescription (category experience skills : String) : String :=
  "## Your Trusted " ++ category ++
  " Professional\n\n**Hello, I'm thrilled to help with your project!**\n\nWith " ++
  experience ++ " of dedicated experience in " ++ category ++ ", I specialize in " ++
  skills ++
  " and have successfully delivered numerous projects that exceed client expectations.\n\n**My Expertise:**\n• " ++
  skills ++
  "\n• Full project lifecycle management\n• Agile development methodologies\n• Client-focused communication\n• Quality assurance and testing\n\n**Why Work With Me:**\n✅ Proven track record with 100% job success score\n✅ " ++
  experience ++
  " of hands-on industry experience\n✅ Clear, frequent communication\n✅ On-time delivery guaranteed\n✅ Post-project support included\n\n**My Approach:**\n1. **Understand:** Deep dive into your requirements\n2. **Plan:** Create a detailed project roadmap\n3. **Execute:** Deliver high-quality work iteratively\n4. **Perfect:** Refine based on your feedback\n5. **Support:** Provide ongoing assistance\n\n**What You Get:**\n- Professional, polished deliverables\n- Regular progress updates\n- Responsive communication (usually within 2 hours)\n- Clean, documented work\n- Money-back satisfaction guarantee\n\nI'm excited to discuss how I can contribute to your project's success. Let's schedule a call to align on your vision!\n\n**Available:** Immediate start\n**Timezone:** Flexible to match your schedule\n\nLooking forward to collaborating with you!"

/-- `skills.split()[0] if skills else 'Professional'` (src/app.py:281):
the same `IndexError` hazard as the Fiverr side, with a different
default. -/
def upworkFirstSkill (skills : String) : Except PyError String :=
  if skills = "" then .ok "Professional"
  else
    match pySplit skills with
    | [] => .error .indexError
    | t :: _ => .ok t

/-- The Upwork tag list (src/app.py:279-290). -/
def upworkTags (category firstSkill : String) : List String :=
  [category, firstSkill, "Project Management", "Client Communication",
   "Quality Assurance", "Problem Solving", "Time Management",
   "Agile Methodology", "Documentation", "Technical Support"]

/-- `tag_info` (src/app.py:292): a bulleted list of the first 8 tags. -/
def upworkTagInfo (tags : List String) : String :=
  String.intercalate "\n" ((tags.take 8).map (fun tag => "• " ++ tag))

/-- `rate = int(hourly_rate) if hourly_rate else 50` (src/app.py:295):
an empty input defaults to 50; otherwise `int()` parses the string, so a
non-integer input — `"50.5"` included — raises `ValueError` before any
record is appended. -/
def upworkRate (hourly_rate : String) : Except PyError Int :=
  if hourly_rate = "" then .ok 50
  else
    match pyIntOfString hourly_rate with
    | none => .error .valueError
    | some n => .ok n

/-- `pricing_suggestion` (src/app.py:296-314). -/
def upworkPricingSuggestion (category : String) (rate : Int) : String :=
  "**Upwork Pricing Strategy:**\n\n**Hourly Rate:** $" ++ intStr rate ++
  "/hour\n- Competitive within " ++ category ++
  " category\n- Includes regular communication\n- Progress tracked via Upwork Time Tracker\n\n**Fixed-Price Alternative:**\n- Small projects: $" ++
  intStr (rate * 10) ++ " - $" ++ intStr (rate * 20) ++
  "\n- Medium projects: $" ++ intStr (rate * 20) ++ " - $" ++ intStr (rate * 50) ++
  "\n- Large projects: $" ++ intStr (rate * 50) ++
  "+\n\n**Value Adds:**\n✓ First consultation: Free (30 minutes)\n✓ Milestone-based payment protection\n✓ Detailed time logs and progress reports\n✓ Post-delivery support: 30 days included\n\n**Pro Tip:** For first-time clients, consider offering a 10% discount to build trust and earn reviews."

/-- The static Upwork tips block (src/app.py:317-332). -/
def upworkTips : String :=
  "**🚀 Upwork Success Strategies:**\n\n1. **Profile Optimization:** Complete your profile to 100% - adds credibility\n2. **Personalized Proposals:** Always customize proposals - never use templates blindly\n3. **Cover Letter:** Keep it concise (200-300 words) and client-focused\n4. **Portfolio:** Showcase 5-8 diverse, high-quality work samples\n5. **Connects Strategy:** Only bid on jobs you're 80%+ qualified for\n6. **Response Time:** Apply within first hour of job posting for 3x better chances\n7. **Job Success Score:** Maintain 90%+ by delivering quality and managing expectations\n8. **Client Questions:** Answer all screening questions thoroughly\n9. **Follow-up:** Send a professional follow-up message after 3-4 days if no response\n10. **Availability Badge:** Keep your profile active with \"Available Now\" status\n11. **Specialized Profile:** Narrow your focus to 2-3 related skills for better matching\n12. **Testimonials:** Request detailed feedback from satisfied clients\n13. **Certifications:** Complete Upwork skill tests to boost profile credibility\n14. **Proposal Video:** Include a 30-second personalized video for higher conversion"

/-- The full markdown the Upwork generator returns (src/app.py:335-361). -/
def upworkOutput (title description tag_info pricing_suggestion tips ts : String) :
    String :=
  "# 💼 Generated Upwork Proposal\n\n## 📝 Proposal Title:\n" ++ title ++
  "\n\n---\n\n## 📄 Proposal Cover Letter:\n" ++ description ++
  "\n\n---\n\n## 🏷️ Suggested Skills/Tags:\n" ++ tag_info ++
  "\n\n---\n\n## 💰 Pricing Recommendations:\n" ++ pricing_suggestion ++
  "\n\n---\n\n## 💡 " ++ tips ++ "\n\n---\n*Generated on " ++ ts ++ "*\n"

/-- The dict appended to `results_storage` by the Upwork generator
(src/app.py:364-373): `hashtags` is the comma-join of the first five
tags; `pricing` renders the parsed hourly rate. -/
def upworkEntry (now : DateTime) (category title description : String)
    (tags : List String) (rate : Int) : GeneratedRecord :=
  { platform := "Upwork"
    category := category
    title := title
    description := description
    hashtags := String.intercalate ", " (tags.take 5)
    pricing := "$" ++ intStr rate ++ "/hour"
    timestamp := strftimeDisplay now }

/-- `generate_upwork_proposal` (src/app.py:219-377). Control flow, in
source order: build title and description; build the tag list (possible
`IndexError`); parse the hourly rate (possible `ValueError`); append the
record; rewrite the backing file — a failed write propagates `OSError`
after the in-memory append, leaving the file in the unguaranteed state
the interrupted, truncating write produced; return the assembled
markdown. -/
def generate_upwork_proposal (category experience skills hourly_rate : String)
    (now : DateTime) (w : WriteOutcome)
    (st : AppState) : AppState × Except PyError String :=
  let title := upworkTitle category experience skills
  let description := upworkDescription category experience skills
  match upworkFirstSkill skills with
  | .error e => (st, .error e)
  | .ok firstSkill =>
    let tags := upworkTags category firstSkill
    match upworkRate hourly_rate with
    | .error e => (st, .error e)
    | .ok rate =>
      let output := upworkOutput title description (upworkTagInfo tags)
        (upworkPricingSuggestion category rate) upworkTips (strftimeDisplay now)
      let entry := upworkEntry now category title description tags rate
      let store := st.results_storage ++ [entry]
      match w with
      | .success =>
        ({ results_storage := store, file := save_results (encodeRecords store) },
         .ok output)
      | .failure f =>
        ({ results_storage := store, file := f }, .error .ioError)

theorem decodeRecord_recordToJVal (r : GeneratedRecord) :
    decodeRecord (recordToJVal r) = some r := rfl

theorem decodeRecordList_map (rs : List GeneratedRecord) :
    decodeRecordList (rs.map recordToJVal) = some rs := by
  induction rs with
  | nil => rfl
  | cons r rest ih =>
    simp [decodeRecordList, decodeRecord_recordToJVal, ih]

theorem decodeRecords_encodeRecords (rs : List GeneratedRecord) :
    decodeRecords (encodeRecords rs) = some rs := by
  simpa [decodeRecords, encodeRecords] using decodeRecordList_map rs

theorem objKeys_recordToJVal (r : GeneratedRecord) :
    objKeys (recordToJVal r) = persistedFields := rfl

theorem foldl_append_singleton {α : Type} (rs acc : List α) :
    rs.foldl (fun a r => a ++ [r]) acc = acc ++ rs := by
  induction rs generalizing acc with
  | nil => simp
  | cons r rest ih => simp [List.foldl_cons, ih, List.append_assoc]

/-- C1: for every sequence of records in the in-memory store, writing it
to the backing file with `save_results` and re-initializing with
`load_results` reproduces an identical ordered sequence of records,
field-for-field; every persisted record object carries exactly the field
names `platform, category, title, description, hashtags, pricing,
timestamp`. -/
theorem C1_roundtrip_persistence (rs : List GeneratedRecord) :
    load_results (save_results (encodeRecords rs)) = encodeRecords rs ∧
    decodeRecords (load_results (save_results (encodeRecords rs))) = some rs ∧
    ∀ r : GeneratedRecord, objKeys (recordToJVal r) = persistedFields :=
  ⟨rfl, decodeRecords_encodeRecords rs, fun r => objKeys_recordToJVal r⟩

/-- C4: `load_results` is total (never raises) and yields the empty
sequence on a missing or corrupt backing file, after which `list("All")`
renders the empty, correctly-shaped seven-column table. -/
theorem C4_initialize_fail_open :
    load_results .absent = .arr [] ∧
    load_results .corrupt = .arr [] ∧
    decodeRecords (load_results .absent) = some [] ∧
    decodeRecords (load_results .corrupt) = some [] ∧
    get_results_display [] = ⟨displayColumns, []⟩ ∧
    filter_results "All" [] = ⟨displayColumns, []⟩ :=
  ⟨rfl, rfl, rfl, rfl, rfl, rfl⟩

/-- C5: on an empty store, `export_to_csv` and `export_to_json` both
return no file — so no export file is written — together with the same
non-empty user-visible status message. -/
theorem C5_empty_store_export (now : DateTime) :
    export_to_csv now [] = (none, emptyExportStatus) ∧
    export_to_json now [] = (none, emptyExportStatus) ∧
    emptyExportStatus ≠ "" := by
  refine ⟨rfl, rfl, ?_⟩
  decide

/-- C10: `load_results` performs no shape validation: it returns
whatever document the backing file's JSON parses to (for example an
object that does not decode as a record list), and falls back to the
empty sequence only when the file is missing or unparsable. -/
theorem C10_no_shape_validation :
    (∀ v : JVal, load_results (.json v) = v) ∧
    load_results .corrupt = .arr [] ∧
    load_results .absent = .arr [] ∧
    load_results (.json (.obj [("platform", .str "Fiverr")])) =
      .obj [("platform", .str "Fiverr")] ∧
    decodeRecords (.obj [("platform", .str "Fiverr")]) = none ∧
    decodeRecords (.arr [.int 3]) = none :=
  ⟨fun _ => rfl, rfl, rfl, rfl, rfl, rfl⟩

theorem filter_results_eq (p : String) (store : List GeneratedRecord)
    (hp : p ≠ "All") :
    filter_results p store =
      ⟨displayColumns, (store.filter (fun r => r.platform == p)).map recordRow⟩ := by
  simp only [filter_results, if_neg hp]
  split
  · next h => simp [h]
  · rfl

/-- C2: for every sequence of append calls, `list("All")` afterwards
returns exactly those records in call order with no loss or reordering;
re-running it without an intervening append yields the identical result;
and each successful generation appends exactly its one record at the end
of the store. -/
theorem C2_append_order_and_idempotence (rs : List GeneratedRecord)
    (category experience skills pricing : String) (now : DateTime)
    (modelTitle : Option String) (st : AppState)
    (hok : (generate_fiverr_gig category experience skills pricing now modelTitle
      .success st).2.isOk = true) :
    (filter_results "All" (rs.foldl (fun acc r => acc ++ [r]) [])).rows
      = rs.map recordRow ∧
    filter_results "All" rs = filter_results "All" rs ∧
    ∃ fs, fiverrFirstSkill skills = .ok fs ∧
      (generate_fiverr_gig category experience skills pricing now modelTitle
        .success st).1.results_storage
        = st.results_storage ++
          [fiverrEntry now category (fiverrTitle modelTitle category skills)
            (fiverrDescription category experience skills)
            (fiverrHashtags category fs) pricing] := by
  refine ⟨?_, rfl, ?_⟩
  · rw [foldl_append_singleton]
    by_cases h : rs = []
    · simp [h, filter_results, get_results_display]
    · simp [filter_results, get_results_display, h]
  · rcases h1 : fiverrFirstSkill skills with e | fs
    · simp [generate_fiverr_gig, h1, Except.isOk, Except.toBool] at hok
    · rcases h2 : fiverrPricingSuggestion pricing with e | ps
      · simp [generate_fiverr_gig, h1, h2, Except.isOk, Except.toBool] at hok
      · exact ⟨fs, rfl, by simp [generate_fiverr_gig, h1, h2]⟩

theorem C2_witness :
    (filter_results "All"
      ([(⟨"Fiverr", "c", "t", "d", "h", "p", "ts"⟩ : GeneratedRecord)].foldl
        (fun acc r => acc ++ [r]) [])).rows
      = [recordRow ⟨"Fiverr", "c", "t", "d", "h", "p", "ts"⟩] :=
  (C2_append_order_and_idempotence [⟨"Fiverr", "c", "t", "d", "h", "p", "ts"⟩]
    "Web Development" "Expert (5+ years)" "React" "" ⟨2024, 1, 1, 10, 0, 0⟩ none
    ⟨[], .absent⟩ rfl).1

/-- C3: for a platform value `p` other than the sentinel `"All"`,
`list(p)` keeps the seven display columns and returns, in store order,
exactly the rows of `list("All")` whose record has `platform = p` — a
subsequence of `list("All")`; when nothing matches (in particular for
any `p` outside `{Fiverr, Upwork}` over a store of generated records,
and for the empty store) the result is the empty seven-column table,
never an error and never null. -/
theorem C3_platform_filter (p : String) (store : List GeneratedRecord)
    (hp : p ≠ "All") :
    (filter_results p store).columns = displayColumns ∧
    (filter_results p store).rows
      = (store.filter (fun r => r.platform == p)).map recordRow ∧
    List.Sublist (filter_results p store).rows (filter_results "All" store).rows ∧
    ((∀ r ∈ store, r.platform = "Fiverr" ∨ r.platform = "Upwork") →
      p ≠ "Fiverr" → p ≠ "Upwork" → filter_results p store = ⟨displayColumns, []⟩) := by
  have key := filter_results_eq p store hp
  refine ⟨by rw [key], by rw [key], ?_, ?_⟩
  · rw [key]
    by_cases h : store = []
    · simp [h]
    · simp only [filter_results, if_pos rfl, get_results_display, if_neg h]
      exact List.Sublist.map recordRow (List.filter_sublist store)
  · intro hall hF hU
    rw [key]
    have hnil : store.filter (fun r => r.platform == p) = [] := by
      rw [List.filter_eq_nil_iff]
      intro r hr
      rcases hall r hr with h | h
      · simp [h]
        exact Ne.symm hF
      · simp [h]
        exact Ne.symm hU
    rw [hnil]
    rfl

theorem C3_witness :
    filter_results "Other"
      [(⟨"Fiverr", "c", "t", "d", "h", "p", "ts"⟩ : GeneratedRecord)]
      = ⟨displayColumns, []⟩ :=
  (C3_platform_filter "Other" [⟨"Fiverr", "c", "t", "d", "h", "p", "ts"⟩]
    (by decide)).2.2.2 (by intro r hr; simp at hr; simp [hr]) (by decide) (by decide)

/-- C6: on a non-empty store, `export_to_json` writes the full ordered
record sequence as a JSON document into the timestamp-suffixed file,
returns that file path with the success status carrying the record
count, and the written document parses back to exactly the current store
contents. -/
theorem C6_json_export_roundtrip (now : DateTime)
    (store : List GeneratedRecord) (h : store ≠ []) :
    export_to_json now store =
      (some (json_filename now, encodeRecords store),
       exportSuccessStatus store.length) ∧
    decodeRecords (encodeRecords store) = some store ∧
    json_filename now = "freelanceboost_export_" ++ strftimeCompact now ++ ".json" ∧
    exportSuccessStatus store.length
      = "✅ Successfully exported " ++ natStr store.length ++ " results" := by
  refine ⟨?_, decodeRecords_encodeRecords store, rfl, rfl⟩
  simp [export_to_json, h]

theorem C6_witness :
    export_to_json ⟨2024, 1, 1, 10, 0, 0⟩
      [(⟨"Fiverr", "c", "t", "d", "h", "p", "ts"⟩ : GeneratedRecord)]
      = (some (json_filename ⟨2024, 1, 1, 10, 0, 0⟩,
          encodeRecords [⟨"Fiverr", "c", "t", "d", "h", "p", "ts"⟩]),
         exportSuccessStatus 1) :=
  (C6_json_export_roundtrip ⟨2024, 1, 1, 10, 0, 0⟩
    [⟨"Fiverr", "c", "t", "d", "h", "p", "ts"⟩] (by decide)).1

theorem fiverrFirstSkill_error_eq (skills : String) (e : PyError)
    (h : fiverrFirstSkill skills = .error e) : e = .indexError := by
  unfold fiverrFirstSkill at h
  by_cases h0 : skills = "" <;> simp [h0] at h
  cases hsp : pySplit skills with
  | nil => simp [hsp] at h; exact h.symm
  | cons t rest => simp [hsp] at h

theorem upworkFirstSkill_error_eq (skills : String) (e : PyError)
    (h : upworkFirstSkill skills = .error e) : e = .indexError := by
  unfold upworkFirstSkill at h
  by_cases h0 : skills = "" <;> simp [h0] at h
  cases hsp : pySplit skills with
  | nil => simp [hsp] at h; exact h.symm
  | cons t rest => simp [hsp] at h

/-- C7 as stated is false: with the backing-file write failing — here
leaving the truncated (corrupt) file that `open(..., "w")` produces
before `json.dump` can run — a generation call raises `OSError` to its
caller, after the in-memory append has already happened, because
`save_results` (src/app.py:45-48) has no exception handler. -/
theorem C7_counterexample :
    (generate_fiverr_gig "Web Development" "Expert (5+ years)" "React" ""
      ⟨2024, 1, 1, 10, 0, 0⟩ none (.failure .corrupt) ⟨[], .absent⟩).2
      = .error .ioError ∧
    (generate_fiverr_gig "Web Development" "Expert (5+ years)" "React" ""
      ⟨2024, 1, 1, 10, 0, 0⟩ none (.failure .corrupt)
      ⟨[], .absent⟩).1.results_storage.length
      = 1 :=
  ⟨rfl, rfl⟩

/-- C7 (amended): the read-side failure paths of the Record Store fail
open — a missing or corrupt backing file loads as the empty sequence,
never raising — but the persistence write performed inside append is not
handled: when it fails, the call raises `OSError` to the caller, with
the record already appended in memory and the backing file left in
whatever state `f` the interrupted write produced — possibly truncated
or partial, since `open(..., "w")` truncates before `json.dump` runs —
a state that a later `load_results` in turn tolerates by failing open. -/
theorem C7_write_failure_propagates
    (category experience skills pricing : String) (now : DateTime)
    (modelTitle : Option String) (st : AppState) (f : FileState) (fs ps : String)
    (h1 : fiverrFirstSkill skills = .ok fs)
    (h2 : fiverrPricingSuggestion pricing = .ok ps) :
    load_results .absent = .arr [] ∧
    load_results .corrupt = .arr [] ∧
    generate_fiverr_gig category experience skills pricing now modelTitle
      (.failure f) st
      = ({ results_storage := st.results_storage ++
            [fiverrEntry now category (fiverrTitle modelTitle category skills)
              (fiverrDescription category experience skills)
              (fiverrHashtags category fs) pricing],
           file := f },
         .error .ioError) := by
  refine ⟨rfl, rfl, ?_⟩
  simp [generate_fiverr_gig, h1, h2]

theorem C7_witness :
    generate_fiverr_gig "Web Development" "Expert (5+ years)" "React" ""
      ⟨2024, 1, 1, 10, 0, 0⟩ none (.failure .corrupt) ⟨[], .absent⟩
      = ({ results_storage :=
            [fiverrEntry ⟨2024, 1, 1, 10, 0, 0⟩ "Web Development"
              (fiverrTitle none "Web Development" "React")
              (fiverrDescription "Web Development" "Expert (5+ years)" "React")
              (fiverrHashtags "Web Development" "React") ""],
           file := .corrupt },
         .error .ioError) :=
  (C7_write_failure_propagates "Web Development" "Expert (5+ years)" "React" ""
    ⟨2024, 1, 1, 10, 0, 0⟩ none ⟨[], .absent⟩ .corrupt "React"
    (fiverrPricingText "50" "100" "150") rfl rfl).2.2

/-- C9 as stated is false: the input `"50.5"` is numeric — `float()`
accepts it — yet `generate_upwork_proposal` parses the hourly rate with
`int()` (src/app.py:295), which raises `ValueError` on it (leaving the
store and the backing file unchanged), refuting "the input is empty or
numeric ⟹ no conversion error". -/
theorem C9_counterexample :
    (pyFloatOfString "50.5").isSome = true ∧
    pyIntOfString "50.5" = none ∧
    generate_upwork_proposal "Web Development" "Expert (5+ years)" "React" "50.5"
      ⟨2024, 1, 1, 10, 0, 0⟩ .success ⟨[], .absent⟩
      = (⟨[], .absent⟩, .error .valueError) :=
  ⟨rfl, rfl, rfl⟩

/-- C9 (amended): a non-empty `pricing` that `float()` rejects makes
`generate_fiverr_gig` raise `ValueError` before appending, and a
non-empty `hourly_rate` that `int()` rejects does the same for
`generate_upwork_proposal`, both leaving the store and the backing file
unchanged; no conversion error occurs in `generate_fiverr_gig` when
`pricing` is empty or parses as a (finite decimal) float, nor in
`generate_upwork_proposal` when `hourly_rate` is empty or parses as an
integer literal — the Upwork precondition is integer-literal, not merely
numeric, input. -/
theorem C9_conversion_error_boundary
    (category experience skills pricing hourly_rate : String)
    (now : DateTime) (modelTitle : Option String) (w : WriteOutcome)
    (st : AppState) (fs : String) :
    (fiverrFirstSkill skills = .ok fs → pricing ≠ "" →
      pyFloatOfString pricing = none →
      generate_fiverr_gig category experience skills pricing now modelTitle w st
        = (st, .error .valueError)) ∧
    (upworkFirstSkill skills = .ok fs → hourly_rate ≠ "" →
      pyIntOfString hourly_rate = none →
      generate_upwork_proposal category experience skills hourly_rate now w st
        = (st, .error .valueError)) ∧
    ((pricing = "" ∨ ∃ q, pyFloatOfString pricing = some q) →
      (generate_fiverr_gig category experience skills pricing now modelTitle
        w st).2 ≠ .error .valueError) ∧
    ((hourly_rate = "" ∨ ∃ n, pyIntOfString hourly_rate = some n) →
      (generate_upwork_proposal category experience skills hourly_rate now
        w st).2 ≠ .error .valueError) := by
  refine ⟨?_, ?_, ?_, ?_⟩
  · intro h1 hne hparse
    have hps : fiverrPricingSuggestion pricing = .error .valueError := by
      simp [fiverrPricingSuggestion, hne, hparse]
    simp [generate_fiverr_gig, h1, hps]
  · intro h1 hne hparse
    have hrt : upworkRate hourly_rate = .error .valueError := by
      simp [upworkRate, hne, hparse]
    simp [generate_upwork_proposal, h1, hrt]
  · intro hp
    have hps : ∃ ps, fiverrPricingSuggestion pricing = .ok ps := by
      by_cases h0 : pricing = ""
      · exact ⟨fiverrPricingText "50" "100" "150",
          by simp [fiverrPricingSuggestion, h0]⟩
      · rcases hp with h | ⟨q, hq⟩
        · exact absurd h h0
        · exact ⟨fiverrPricingText pricing (intStr (ratTrunc (q * 2)))
            (intStr (ratTrunc (q * 3))), by simp [fiverrPricingSuggestion, h0, hq]⟩
    rcases hps with ⟨ps, hps⟩
    rcases hfs : fiverrFirstSkill skills with e | fs'
    · have he := fiverrFirstSkill_error_eq skills e hfs
      subst he
      simp [generate_fiverr_gig, hfs]
    · cases w <;> simp [generate_fiverr_gig, hfs, hps]
  · intro hp
    have hrt : ∃ n, upworkRate hourly_rate = .ok n := by
      by_cases h0 : hourly_rate = ""
      · exact ⟨50, by simp [upworkRate, h0]⟩
      · rcases hp with h | ⟨n, hn⟩
        · exact absurd h h0
        · exact ⟨n, by simp [upworkRate, h0, hn]⟩
    rcases hrt with ⟨n, hrt⟩
    rcases hfs : upworkFirstSkill skills with e | fs'
    · have he := upworkFirstSkill_error_eq skills e hfs
      subst he
      simp [generate_upwork_proposal, hfs]
    · cases w <;> simp [generate_upwork_proposal, hfs, hrt]

theorem C9_witness :
    generate_upwork_proposal "Web Development" "Expert (5+ years)" "React" "abc"
      ⟨2024, 1, 1, 10, 0, 0⟩ .success ⟨[], .absent⟩
      = (⟨[], .absent⟩, .error .valueError) :=
  (C9_conversion_error_boundary "Web Development" "Expert (5+ years)" "React" ""
    "abc" ⟨2024, 1, 1, 10, 0, 0⟩ none .success ⟨[], .absent⟩ "React").2.1
    rfl (by decide) rfl

theorem charIsDigit_natDigitChar (n : Nat) :
    charIsDigit (natDigitChar n) = true := by
  rcases n with _ | _ | _ | _ | _ | _ | _ | _ | _ | n <;> rfl

theorem natDigitsAux_all_digit (fuel : Nat) : ∀ n : Nat,
    ∀ c ∈ natDigitsAux fuel n, charIsDigit c = true := by
  induction fuel with
  | zero => intro n c hc; simp [natDigitsAux] at hc
  | succ fuel ih =>
    intro n c hc
    rw [natDigitsAux] at hc
    split at hc
    · simp only [List.mem_singleton] at hc
      subst hc
      exact charIsDigit_natDigitChar n
    · rcases List.mem_append.mp hc with hc | hc
      · exact ih (n / 10) c hc
      · simp only [List.mem_singleton] at hc
        subst hc
        exact charIsDigit_natDigitChar (n % 10)

theorem natDigits_all_digit (n : Nat) :
    ∀ c ∈ natDigits n, charIsDigit c = true :=
  natDigitsAux_all_digit (n + 1) n

theorem natDigitsAux_length_le (fuel : Nat) : ∀ w n : Nat, n < 10 ^ w → 1 ≤ w →
    (natDigitsAux fuel n).length ≤ w := by
  induction fuel with
  | zero => intro w n _ _; simp [natDigitsAux]
  | succ fuel ih =>
    intro w n h hw
    rw [natDigitsAux]
    split
    · simpa using hw
    · next hge =>
      rcases w with _ | w
      · omega
      · have hw1 : 1 ≤ w := by
          rcases Nat.eq_zero_or_pos w with h0 | h0
          · subst h0
            simp at h
            omega
          · exact h0
        have hdiv : n / 10 < 10 ^ w := by
          apply (Nat.div_lt_iff_lt_mul (by norm_num)).2
          calc n < 10 ^ (w + 1) := h
            _ = 10 ^ w * 10 := by ring
        have := ih w (n / 10) hdiv hw1
        simp only [List.length_append, List.length_singleton]
        omega

theorem natDigits_length_le (w n : Nat) (h : n < 10 ^ w) (hw : 1 ≤ w) :
    (natDigits n).length ≤ w :=
  natDigitsAux_length_le (n + 1) w n h hw

theorem padNat_length (w n : Nat) (h : n < 10 ^ w) (hw : 1 ≤ w) :
    (padNat w n).length = w := by
  have hle := natDigits_length_le w n h hw
  simp only [padNat, List.length_append, List.length_replicate]
  omega

theorem padNat_all_digit (w n : Nat) :
    ∀ c ∈ padNat w n, charIsDigit c = true := by
  intro c hc
  rcases List.mem_append.mp hc with hc | hc
  · rcases List.eq_of_mem_replicate hc with rfl
    rfl
  · exact natDigits_all_digit n c hc

/-- The compact timestamp has the `YYYYMMDD_HHMMSS` shape: eight digits,
an underscore, six digits, provided each component is within its
rendering width (true of every real clock reading). -/
theorem strftimeCompact_shape (t : DateTime) (hy : t.year < 10000)
    (hmo : t.month < 100) (hd : t.day < 100) (hh : t.hour < 100)
    (hmi : t.minute < 100) (hs : t.second < 100) :
    ∃ a b : List Char,
      (strftimeCompact t).data = a ++ '_' :: b ∧
      a.length = 8 ∧ b.length = 6 ∧
      (∀ c ∈ a, charIsDigit c = true) ∧ (∀ c ∈ b, charIsDigit c = true) := by
  refine ⟨padNat 4 t.year ++ padNat 2 t.month ++ padNat 2 t.day,
          padNat 2 t.hour ++ padNat 2 t.minute ++ padNat 2 t.second,
          ?_, ?_, ?_, ?_, ?_⟩
  · simp [strftimeCompact, List.append_assoc]
  · have h4 := padNat_length 4 t.year (by norm_num; omega) (by norm_num)
    have h2m := padNat_length 2 t.month (by norm_num; omega) (by norm_num)
    have h2d := padNat_length 2 t.day (by norm_num; omega) (by norm_num)
    simp [List.length_append, h4, h2m, h2d]
  · have h2h := padNat_length 2 t.hour (by norm_num; omega) (by norm_num)
    have h2mi := padNat_length 2 t.minute (by norm_num; omega) (by norm_num)
    have h2s := padNat_length 2 t.second (by norm_num; omega) (by norm_num)
    simp [List.length_append, h2h, h2mi, h2s]
  · intro c hc
    rcases List.mem_append.mp hc with hc | hc
    · rcases List.mem_append.mp hc with hc | hc
      · exact padNat_all_digit 4 t.year c hc
      · exact padNat_all_digit 2 t.month c hc
    · exact padNat_all_digit 2 t.day c hc
  · intro c hc
    rcases List.mem_append.mp hc with hc | hc
    · rcases List.mem_append.mp hc with hc | hc
      · exact padNat_all_digit 2 t.hour c hc
      · exact padNat_all_digit 2 t.minute c hc
    · exact padNat_all_digit 2 t.second c hc

/-- Surrounding a string with a fixed stem and a fixed extension is
injective, so distinct timestamp strings give distinct export
filenames. -/
theorem stem_ext_inj (stem ext a b : String)
    (h : stem ++ a ++ ext = stem ++ b ++ ext) : a = b := by
  have hd := congrArg String.data h
  simp only [String.data_append, List.append_assoc] at hd
  have h1 := List.append_cancel_left hd
  have h2 := List.append_cancel_right h1
  exact congrArg String.mk h2

/-- C8 as stated is false: two distinct, both-successful export calls
made at the same second-granularity clock reading (the two stores below
differ, so the calls are distinct) produce the same filename and hence
write to the same file — the timestamp suffix is not
collision-resistant within one second. -/
theorem C8_counterexample :
    (export_to_json ⟨2024, 1, 1, 10, 0, 0⟩
      [(⟨"Fiverr", "c", "t", "d", "h", "p", "ts"⟩ : GeneratedRecord)]).1.map
        Prod.fst
      = some "freelanceboost_export_20240101_100000.json" ∧
    (export_to_json ⟨2024, 1, 1, 10, 0, 0⟩
      [⟨"Fiverr", "c", "t", "d", "h", "p", "ts"⟩,
       ⟨"Upwork", "c2", "t2", "d2", "h2", "p2", "ts2"⟩]).1.map Prod.fst
      = some "freelanceboost_export_20240101_100000.json" :=
  ⟨rfl, rfl⟩

/-- C8 (amended): every successful export writes a file in the working
directory named `freelanceboost_export_<YYYYMMDD_HHMMSS>.csv` /
`.json` — a suffix of second-level granularity (eight digits, an
underscore, six digits, for any in-range clock reading); export calls
whose clock readings render to distinct timestamp strings write distinct
files, but calls of the same exporter within the same second reuse the
same filename. -/
theorem C8_export_filenames (now other : DateTime)
    (store : List GeneratedRecord) (hne : store ≠ [])
    (hy : now.year < 10000) (hmo : now.month < 100) (hd : now.day < 100)
    (hh : now.hour < 100) (hmi : now.minute < 100) (hs : now.second < 100) :
    (export_to_csv now store).1 = some (csv_filename now) ∧
    (export_to_json now store).1.map Prod.fst = some (json_filename now) ∧
    csv_filename now = "freelanceboost_export_" ++ strftimeCompact now ++ ".csv" ∧
    json_filename now = "freelanceboost_export_" ++ strftimeCompact now ++ ".json" ∧
    (∃ a b : List Char,
      (strftimeCompact now).data = a ++ '_' :: b ∧
      a.length = 8 ∧ b.length = 6 ∧
      (∀ c ∈ a, charIsDigit c = true) ∧ (∀ c ∈ b, charIsDigit c = true)) ∧
    (strftimeCompact now ≠ strftimeCompact other →
      csv_filename now ≠ csv_filename other ∧
      json_filename now ≠ json_filename other) := by
  refine ⟨by simp [export_to_csv, hne], by simp [export_to_json, hne], rfl, rfl,
    strftimeCompact_shape now hy hmo hd hh hmi hs, ?_⟩
  intro hts
  constructor
  · intro hfn
    exact hts (stem_ext_inj "freelanceboost_export_" ".csv" _ _ hfn)
  · intro hfn
    exact hts (stem_ext_inj "freelanceboost_export_" ".json" _ _ hfn)

theorem C8_witness :
    csv_filename ⟨2024, 1, 1, 10, 0, 0⟩ ≠ csv_filename ⟨2024, 1, 1, 10, 0, 1⟩ :=
  ((C8_export_filenames ⟨2024, 1, 1, 10, 0, 0⟩ ⟨2024, 1, 1, 10, 0, 1⟩
    [⟨"Fiverr", "c", "t", "d", "h", "p", "ts"⟩] (by decide) (by decide) (by decide)
    (by decide) (by decide) (by decide) (by decide)).2.2.2.2.2 (by decide)).1

end FreelanceBoost
